/-
Verification of the weather-dashboard MCP server (`weather.py`).

This file gives a shallow embedding of the program's data model and
operations in Lean 4 and proves the spec claims about them.

Modelling conventions, used throughout:
* Python numbers (ints and floats used for coordinates, temperatures,
  wind speeds, thresholds) are modelled as `ℚ`; the program only
  compares and does field arithmetic on them, which `ℚ` performs exactly.
* JSON data returned by the upstream API is modelled by the inductive
  `JVal`; Python's `d[k]`, `d.get(k, default)`, `k in d`, `xs[i]`,
  truthiness, and `float(...)` conversion are modelled by the `JVal`
  helpers below.  Operations that can raise a Python exception return
  `Except String α`, the `.error` case carrying the exception text.
* The HTTP transport is an external collaborator: it is passed in as a
  parameter `net : String → Except String JVal` (a successful request
  returning a JSON body, or a raised exception with its text `str(e)`).
* `datetime.now()` is external as well: each operation receives the
  current time as an opaque `now : String` parameter used for every
  timestamp of that call.
* Python's slice `lst[-C:]` for a positive literal `C` is `takeLast C`.
-/
import Mathlib

/-! ## Bounded histories: the `lst[-C:]` slice -/

/-- Python's `lst[-C:]` for a positive constant `C`: the suffix of the
last `C` elements (all of them when the list is shorter). -/
def takeLast (C : Nat) (l : List α) : List α :=
  l.drop (l.length - C)

/-- `lst.append(x)` followed by `lst = lst[-C:]`, the program's single
bounded-history insertion step (`weather.py` lines 26-32, 36-41, 62-69,
98-105). -/
def pushBounded (C : Nat) (l : List α) (x : α) : List α :=
  takeLast C (l ++ [x])

theorem takeLast_length (C : Nat) (l : List α) :
    (takeLast C l).length = min l.length C := by
  simp only [takeLast, List.length_drop]
  omega

theorem takeLast_of_length_le (C : Nat) (l : List α) (h : l.length ≤ C) :
    takeLast C l = l := by
  simp only [takeLast]
  rw [Nat.sub_eq_zero_of_le h, List.drop_zero]

theorem takeLast_append_of_le (C : Nat) (a b : List α) (h : C ≤ b.length) :
    takeLast C (a ++ b) = takeLast C b := by
  simp only [takeLast, List.length_append]
  rw [show a.length + b.length - C = a.length + (b.length - C) by omega,
    List.drop_append]

/-- Re-truncating an already truncated prefix does not change the final
`C`-suffix: the key step for composing bounded insertions. -/
theorem takeLast_takeLast_append (C : Nat) (a b : List α) :
    takeLast C (takeLast C a ++ b) = takeLast C (a ++ b) := by
  by_cases h : a.length ≤ C
  · rw [takeLast_of_length_le C a h]
  · have hC : C ≤ a.length := le_of_not_le h
    have hlen : (takeLast C a).length = C := by rw [takeLast_length]; omega
    have hsplit : a ++ b = List.take (a.length - C) a ++ (takeLast C a ++ b) := by
      simp only [takeLast]
      rw [← List.append_assoc, List.take_append_drop]
    conv_rhs => rw [hsplit]
    rw [takeLast_append_of_le C (List.take (a.length - C) a) (takeLast C a ++ b)
      (by simp only [List.length_append, hlen]; omega)]

/-- Folding bounded insertions over a list of items, starting from a
state already within capacity, yields exactly the last `C` inserted
items (preceded by what survives of the initial state). -/
theorem foldl_pushBounded (C : Nat) (xs init : List α) (h : init.length ≤ C) :
    xs.foldl (pushBounded C) init = takeLast C (init ++ xs) := by
  induction xs generalizing init with
  | nil => simp [takeLast_of_length_le C init h]
  | cons x xs ih =>
    have hlen : (pushBounded C init x).length ≤ C := by
      simp [pushBounded, takeLast_length]
    rw [List.foldl_cons, ih (pushBounded C init x) hlen]
    simp only [pushBounded]
    rw [takeLast_takeLast_append, List.append_assoc]
    rfl

/-- Folding whole-batch appends with a single truncation after each
batch (the `alert_history` pattern of `get_alerts`) equals keeping the
last `C` elements of all insertions. -/
theorem foldl_batchBounded (C : Nat) (bs : List (List α)) (init : List α)
    (h : init.length ≤ C) :
    bs.foldl (fun hist b => takeLast C (hist ++ b)) init = takeLast C (init ++ bs.flatten) := by
  induction bs generalizing init with
  | nil => simp [takeLast_of_length_le C init h]
  | cons b bs ih =>
    rw [List.foldl_cons, ih (takeLast C (init ++ b)) (by simp [takeLast_length])]
    rw [takeLast_takeLast_append, List.append_assoc, List.flatten_cons]

/-! ## JSON values and Python dictionary/sequence semantics -/

/-- A JSON value as returned by `response.json()`. -/
inductive JVal where
  | null
  | bool (b : Bool)
  | num (q : ℚ)
  | str (s : String)
  | arr (xs : List JVal)
  | obj (fs : List (String × JVal))

/-- Python truthiness of a JSON value (`if not data: ...`). -/
def JVal.truthy : JVal → Bool
  | .null => false
  | .bool b => b
  | .num q => q != 0
  | .str s => !s.isEmpty
  | .arr xs => !xs.isEmpty
  | .obj fs => !fs.isEmpty

/-- First binding of key `k` in an object, if any. -/
def JVal.find : JVal → String → Option JVal
  | .obj fs, k => fs.lookup k
  | _, _ => none

/-- Python `d[k]`: raises `KeyError` when the key is absent and
`TypeError` when the value is not a dictionary. -/
def JVal.getKey : JVal → String → Except String JVal
  | .obj fs, k =>
    match fs.lookup k with
    | some v => .ok v
    | none => .error ("KeyError: " ++ k)
  | _, k => .error ("TypeError: value not subscriptable with key " ++ k)

/-- Python `d.get(k, default)`: raises `AttributeError` when the value
is not a dictionary; otherwise substitutes the default for a missing
key. -/
def JVal.pyGet (v : JVal) (k : String) (d : JVal) : Except String JVal :=
  match v with
  | .obj fs => .ok ((fs.lookup k).getD d)
  | _ => .error "AttributeError: no attribute get"

/-- Python `k in d`: key test on a dictionary, membership on a list,
substring test on a string, `TypeError` otherwise. -/
def JVal.pyIn (v : JVal) (k : String) : Except String Bool :=
  match v with
  | .obj fs => .ok ((fs.lookup k).isSome)
  | .arr xs => .ok (xs.any fun x => match x with | .str s => s == k | _ => false)
  | .str s => .ok (decide (List.IsInfix k.toList s.toList))
  | _ => .error "TypeError: argument not iterable"

/-- Python `xs[i]` for a non-negative index. -/
def JVal.getIdx : JVal → Nat → Except String JVal
  | .arr xs, i =>
    match xs.get? i with
    | some v => .ok v
    | none => .error "IndexError: list index out of range"
  | _, _ => .error "TypeError: value not subscriptable with an index"

/-- Python `for x in v` / `v[:n]`: the element list of a JSON array;
iterating anything else in this program's positions is a `TypeError`
(iteration over dictionary keys or string characters is never type
correct downstream here and is collapsed to the error case). -/
def JVal.asArr : JVal → Except String (List JVal)
  | .arr xs => .ok xs
  | _ => .error "TypeError: value not iterable"

/-- Python `str(v)` as used when interpolating report text.  Nested
containers are abbreviated: the program only splices these renderings
into display strings, and no property below depends on their exact
text. -/
def JVal.pyStr : JVal → String
  | .null => "None"
  | .bool b => if b then "True" else "False"
  | .num q => toString q
  | .str s => s
  | .arr _ => "[...]"
  | .obj _ => "\x7b...\x7d"

/-- Digits of a decimal literal to a natural number. -/
def digitsToNat (l : List Char) : Nat :=
  l.foldl (fun a c => a * 10 + (c.toNat - 48)) 0

/-- Splits a character list at the first dot. -/
def splitDot : List Char → List Char × Option (List Char)
  | [] => ([], none)
  | '.' :: r => ([], some r)
  | c :: r =>
    let p := splitDot r
    (c :: p.1, p.2)

/-- Python `float(s)` on a string: optional sign, then a plain decimal
literal `ddd`, `ddd.`, `.ddd` or `ddd.ddd` (the exponent and
infinity/NaN forms never produced by the upstream data are not
modelled); anything else raises `ValueError`. -/
def pyFloat (s : String) : Except String ℚ :=
  let t := s.trim.toList
  let sgn : ℚ × List Char :=
    match t with
    | '-' :: r => (-1, r)
    | '+' :: r => (1, r)
    | r => (1, r)
  let p := splitDot sgn.2
  let intPart := p.1
  let fracPart := (p.2).getD []
  if intPart.all Char.isDigit ∧ fracPart.all Char.isDigit ∧
      (intPart ≠ [] ∨ fracPart ≠ []) then
    .ok (sgn.1 * ((digitsToNat intPart : ℚ) +
      (digitsToNat fracPart : ℚ) / ((10 : ℚ) ^ fracPart.length)))
  else
    .error ("ValueError: could not convert string to float: " ++ s)

/-- Python `float(v)` on a JSON value. -/
def pyFloatOf : JVal → Except String ℚ
  | .num q => .ok q
  | .str s => pyFloat s
  | .bool b => .ok (if b then 1 else 0)
  | _ => .error "TypeError: float() argument"

/-- Python `s.split()`: split on whitespace runs, dropping empties. -/
def pySplitWS (s : String) : List String :=
  (s.split Char.isWhitespace).filter (fun t => !t.isEmpty)

/-- `float(v.split()[0])`, the wind-speed extraction
(`weather.py` line 128): `v` must be a string or `AttributeError`, its
first whitespace token must exist or `IndexError`, and that token must
parse as a float. -/
def pyWindParse : JVal → Except String ℚ
  | .str s =>
    match pySplitWS s with
    | [] => .error "IndexError: list index out of range"
    | t :: _ => pyFloat t
  | _ => .error "AttributeError: no attribute split"

/-! ## Session Context data model (`WeatherContext`, `weather.py` 9-69) -/

/-- An entry of `location_history` (lines 62-67 / 98-103). -/
structure LocationRecord where
  lat : ℚ
  lon : ℚ
  state : Option String
  timestamp : String

/-- An entry of `last_queries` (lines 89-93). -/
structure FailedQuery where
  url : String
  error : String
  timestamp : String

/-- An entry of `alert_history` (lines 272-278): the raw JSON property
values as stored by `get_alerts`. -/
structure AlertRecord where
  event : JVal
  area : JVal
  severity : JVal
  description : JVal
  instructions : JVal

/-- A min/max pair of `alert_thresholds` (lines 18-22). -/
structure Threshold where
  min : ℚ
  max : ℚ

/-- The `alert_thresholds` configuration dictionary. -/
structure AlertThresholds where
  temperature : Threshold
  wind_speed : Threshold
  precipitation : Threshold

/-- The defaults installed by `WeatherContext.__init__` (lines 18-22). -/
def defaultAlertThresholds : AlertThresholds :=
  { temperature := { min := 32, max := 90 }
    wind_speed := { min := 0, max := 30 }
    precipitation := { min := 0, max := 1/2 } }

/-- The conditions dictionary built by `get_current_conditions`
(lines 126-131) and consumed by `check_alert_conditions` (lines 43-58).
A `none` field models an absent dictionary key. -/
structure Conditions where
  temperature : Option ℚ
  wind_speed : Option ℚ
  conditions : Option JVal
  humidity : Option ℚ

/-- An entry of `weather_trends` (lines 36-39). -/
structure TrendSample where
  conditions : Conditions
  timestamp : String

/-- The `details` payload recorded by `get_current_conditions`
(lines 140-145). -/
structure InteractionDetails where
  lat : ℚ
  lon : ℚ
  conditions : Conditions
  alerts : List String

/-- An entry of `user_interactions` (lines 26-30). -/
structure InteractionRecord where
  action : String
  details : InteractionDetails
  timestamp : String

/-- The `monitoring_settings` dictionary (lines 298-303); `none` models
the initial empty dictionary. -/
structure MonitoringSettings where
  lat : ℚ
  lon : ℚ
  interval : Int
  last_update : String

/-- The mutable state of `WeatherContext` (lines 9-22). -/
structure WeatherContext where
  location_history : List LocationRecord
  last_queries : List FailedQuery
  user_preferences : List (String × JVal)
  alert_history : List AlertRecord
  monitoring_settings : Option MonitoringSettings
  weather_trends : List TrendSample
  user_interactions : List InteractionRecord
  alert_thresholds : AlertThresholds

/-- `WeatherContext.__init__` (lines 10-22). -/
def WeatherContext.init : WeatherContext :=
  { location_history := []
    last_queries := []
    user_preferences := []
    alert_history := []
    monitoring_settings := none
    weather_trends := []
    user_interactions := []
    alert_thresholds := defaultAlertThresholds }

/-- `WeatherContext.add_interaction` (lines 24-32). -/
def add_interaction (now : String) (ctx : WeatherContext) (action : String)
    (details : InteractionDetails) : WeatherContext :=
  { ctx with user_interactions :=
      pushBounded 100 ctx.user_interactions ⟨action, details, now⟩ }

/-- `WeatherContext.update_weather_trends` (lines 34-41). -/
def update_weather_trends (now : String) (ctx : WeatherContext)
    (conditions : Conditions) : WeatherContext :=
  { ctx with weather_trends :=
      pushBounded 24 ctx.weather_trends ⟨conditions, now⟩ }

/-- `update_context` (lines 60-69 and its verbatim copy 96-105): append
a location record and keep the last 10. -/
def update_context (now : String) (ctx : WeatherContext) (lat lon : ℚ)
    (state : Option String) : WeatherContext :=
  { ctx with location_history :=
      pushBounded 10 ctx.location_history ⟨lat, lon, state, now⟩ }

/-- Python truthiness of an optionally-present numeric field,
`if conditions.get("temperature"):` — false when the key is absent
(`None`) and when the value is `0`/`0.0`. -/
def truthyNum : Option ℚ → Bool
  | none => false
  | some q => q != 0

/-- The temperature "below minimum" alert text (line 49). -/
def tempBelowMsg (t : ℚ) : String :=
  "Temperature Alert: " ++ toString t ++ "°F is below minimum threshold"

/-- The temperature "above maximum" alert text (line 51). -/
def tempAboveMsg (t : ℚ) : String :=
  "Temperature Alert: " ++ toString t ++ "°F is above maximum threshold"

/-- The wind "exceeds maximum" alert text (line 56). -/
def windMsg (w : ℚ) : String :=
  "Wind Alert: " ++ toString w ++ " mph exceeds maximum threshold"

/-- `WeatherContext.check_alert_conditions` (lines 43-58), the spec's
`derive_alerts`: the threshold configuration is the context's
`alert_thresholds`, passed here explicitly. -/
def check_alert_conditions (th : AlertThresholds) (c : Conditions) : List String :=
  let alerts : List String := []
  let alerts :=
    if truthyNum c.temperature then
      let temp := c.temperature.getD 0
      if temp < th.temperature.min then alerts ++ [tempBelowMsg temp]
      else if temp > th.temperature.max then alerts ++ [tempAboveMsg temp]
      else alerts
    else alerts
  let alerts :=
    if truthyNum c.wind_speed then
      let wind := c.wind_speed.getD 0
      if wind > th.wind_speed.max then alerts ++ [windMsg wind]
      else alerts
    else alerts
  alerts

/-! ## Remote Data Gateway and Weather Query Service (`WeatherModel`) -/

/-- The transport capability: a URL fetch that either returns a parsed
JSON body or raises (the string is `str(e)`). -/
abbrev Net := String → Except String JVal

/-- `self.NWS_API_BASE` (line 73). -/
def NWS_API_BASE : String := "https://api.weather.gov"

/-- The points-lookup URL `f"{NWS_API_BASE}/points/{lat},{lon}"`. -/
def points_url (lat lon : ℚ) : String :=
  NWS_API_BASE ++ "/points/" ++ toString lat ++ "," ++ toString lon

/-- The fixed radar-stations URL (line 230). -/
def radar_url : String := NWS_API_BASE ++ "/radar/stations"

/-- The alerts-by-area URL (line 260). -/
def alerts_url (state : String) : String :=
  NWS_API_BASE ++ "/alerts/active/area/" ++ state

/-- `WeatherModel.make_nws_request` (lines 77-94): the whole request is
wrapped in `try/except Exception`; any failure appends a
`FailedQuery` record to `last_queries` (unbounded) and yields `None`. -/
def make_nws_request (net : Net) (now : String) (ctx : WeatherContext)
    (url : String) : Option JVal × WeatherContext :=
  match net url with
  | .ok v => (some v, ctx)
  | .error e =>
    (none, { ctx with last_queries := ctx.last_queries ++ [⟨url, e, now⟩] })

/-- The conditions dictionary literal of `get_current_conditions`
(lines 126-131), evaluated field by field in source order. -/
def buildConditions (current : JVal) : Except String Conditions := do
  let tJ ← current.pyGet "temperature" (.num 0)
  let t ← pyFloatOf tJ
  let wJ ← current.pyGet "windSpeed" (.str "0")
  let w ← pyWindParse wJ
  let sfJ ← current.pyGet "shortForecast" .null
  let rhJ ← current.pyGet "relativeHumidity" (.obj [])
  let rvJ ← rhJ.pyGet "value" (.num 0)
  let hu ← pyFloatOf rvJ
  .ok ⟨some t, some w, some sfJ, some hu⟩

/-- The response f-string of `get_current_conditions` (lines 148-154). -/
def formatCurrent (current : JVal) : Except String String := do
  let t ← current.pyGet "temperature" (.str "N/A")
  let ws ← current.pyGet "windSpeed" (.str "N/A")
  let wd ← current.pyGet "windDirection" (.str "")
  let sf ← current.pyGet "shortForecast" (.str "N/A")
  let rh ← current.pyGet "relativeHumidity" (.obj [])
  let rhv ← rh.pyGet "value" (.str "N/A")
  .ok ("Current Conditions:\nTemperature: " ++ t.pyStr ++ "°F\nWind: " ++
    ws.pyStr ++ " " ++ wd.pyStr ++ "\nConditions: " ++ sf.pyStr ++
    "\nHumidity: " ++ rhv.pyStr ++ "%\n")

/-- `WeatherModel.get_current_conditions` (lines 107-159). -/
def get_current_conditions (net : Net) (now : String) (ctx0 : WeatherContext)
    (lat lon : ℚ) : Except String String × WeatherContext :=
  let ctx1 := update_context now ctx0 lat lon none
  let r1 := make_nws_request net now ctx1 (points_url lat lon)
  let ctx2 := r1.2
  match r1.1 with
  | none => (.ok "Unable to fetch location data.", ctx2)
  | some pd =>
  if !pd.truthy then (.ok "Unable to fetch location data.", ctx2) else
  match (pd.getKey "properties").bind (fun p => p.getKey "forecast") with
  | .error e => (.error e, ctx2)
  | .ok furl =>
  let r2 := make_nws_request net now ctx2 furl.pyStr
  let ctx3 := r2.2
  match r2.1 with
  | none => (.ok "Unable to fetch forecast data.", ctx3)
  | some fd =>
  if !fd.truthy then (.ok "Unable to fetch forecast data.", ctx3) else
  match fd.pyIn "properties" with
  | .error e => (.error e, ctx3)
  | .ok false => (.ok "Unable to fetch forecast data.", ctx3)
  | .ok true =>
  match (fd.getKey "properties").bind
      (fun p => (p.getKey "periods").bind (fun ps => ps.getIdx 0)) with
  | .error e => (.error e, ctx3)
  | .ok current =>
  match buildConditions current with
  | .error e => (.error e, ctx3)
  | .ok conds =>
  let ctx4 := update_weather_trends now ctx3 conds
  let alerts := check_alert_conditions ctx4.alert_thresholds conds
  let ctx5 := add_interaction now ctx4 "get_current_conditions" ⟨lat, lon, conds, alerts⟩
  match formatCurrent current with
  | .error e => (.error e, ctx5)
  | .ok resp =>
  (.ok (if alerts.isEmpty then resp
        else resp ++ "\nAlerts:\n" ++ String.intercalate "\n" alerts), ctx5)

/-- One block of the hourly forecast report (lines 181-186). -/
def formatHourlyPeriod (p : JVal) : Except String String := do
  let st ← p.pyGet "startTime" (.str "N/A")
  let t ← p.pyGet "temperature" (.str "N/A")
  let sf ← p.pyGet "shortForecast" (.str "N/A")
  let ws ← p.pyGet "windSpeed" (.str "N/A")
  let wd ← p.pyGet "windDirection" (.str "")
  .ok ("Time: " ++ st.pyStr ++ "\nTemperature: " ++ t.pyStr ++
    "°F\nConditions: " ++ sf.pyStr ++ "\nWind: " ++ ws.pyStr ++ " " ++
    wd.pyStr ++ "\n")

/-- `WeatherModel.get_hourly_forecast` (lines 161-188). -/
def get_hourly_forecast (net : Net) (now : String) (ctx0 : WeatherContext)
    (lat lon : ℚ) : Except String String × WeatherContext :=
  let ctx1 := update_context now ctx0 lat lon none
  let r1 := make_nws_request net now ctx1 (points_url lat lon)
  let ctx2 := r1.2
  match r1.1 with
  | none => (.ok "Unable to fetch location data.", ctx2)
  | some pd =>
  if !pd.truthy then (.ok "Unable to fetch location data.", ctx2) else
  match (pd.getKey "properties").bind (fun p => p.getKey "forecastHourly") with
  | .error e => (.error e, ctx2)
  | .ok hurl =>
  let r2 := make_nws_request net now ctx2 hurl.pyStr
  let ctx3 := r2.2
  match r2.1 with
  | none => (.ok "Unable to fetch hourly forecast data.", ctx3)
  | some hd =>
  if !hd.truthy then (.ok "Unable to fetch hourly forecast data.", ctx3) else
  match hd.pyIn "properties" with
  | .error e => (.error e, ctx3)
  | .ok false => (.ok "Unable to fetch hourly forecast data.", ctx3)
  | .ok true =>
  match (hd.getKey "properties").bind (fun p => p.getKey "periods") with
  | .error e => (.error e, ctx3)
  | .ok periodsJ =>
  match periodsJ.asArr with
  | .error e => (.error e, ctx3)
  | .ok allPeriods =>
  match (allPeriods.take 24).mapM formatHourlyPeriod with
  | .error e => (.error e, ctx3)
  | .ok blocks => (.ok (String.intercalate "\n---\n" blocks), ctx3)

/-- One block of the daily forecast report (lines 210-216). -/
def formatDailyPeriod (p : JVal) : Except String String := do
  let nm ← p.pyGet "name" (.str "N/A")
  let t ← p.pyGet "temperature" (.str "N/A")
  let sf ← p.pyGet "shortForecast" (.str "N/A")
  let ws ← p.pyGet "windSpeed" (.str "N/A")
  let wd ← p.pyGet "windDirection" (.str "")
  let det ← p.pyGet "detailedForecast" (.str "N/A")
  .ok ("Day: " ++ nm.pyStr ++ "\nTemperature: " ++ t.pyStr ++
    "°F\nConditions: " ++ sf.pyStr ++ "\nWind: " ++ ws.pyStr ++ " " ++
    wd.pyStr ++ "\nDetails: " ++ det.pyStr ++ "\n")

/-- `WeatherModel.get_daily_forecast` (lines 190-218). -/
def get_daily_forecast (net : Net) (now : String) (ctx0 : WeatherContext)
    (lat lon : ℚ) : Except String String × WeatherContext :=
  let ctx1 := update_context now ctx0 lat lon none
  let r1 := make_nws_request net now ctx1 (points_url lat lon)
  let ctx2 := r1.2
  match r1.1 with
  | none => (.ok "Unable to fetch location data.", ctx2)
  | some pd =>
  if !pd.truthy then (.ok "Unable to fetch location data.", ctx2) else
  match (pd.getKey "properties").bind (fun p => p.getKey "forecast") with
  | .error e => (.error e, ctx2)
  | .ok furl =>
  let r2 := make_nws_request net now ctx2 furl.pyStr
  let ctx3 := r2.2
  match r2.1 with
  | none => (.ok "Unable to fetch forecast data.", ctx3)
  | some fd =>
  if !fd.truthy then (.ok "Unable to fetch forecast data.", ctx3) else
  match fd.pyIn "properties" with
  | .error e => (.error e, ctx3)
  | .ok false => (.ok "Unable to fetch forecast data.", ctx3)
  | .ok true =>
  match (fd.getKey "properties").bind (fun p => p.getKey "periods") with
  | .error e => (.error e, ctx3)
  | .ok periodsJ =>
  match periodsJ.asArr with
  | .error e => (.error e, ctx3)
  | .ok periods =>
  match periods.mapM formatDailyPeriod with
  | .error e => (.error e, ctx3)
  | .ok blocks => (.ok (String.intercalate "\n---\n" blocks), ctx3)

/-- The squared-distance entry computed for one station of the radar
loop (lines 240-242): extract the station's latitude and longitude
and form `(station_lat - lat)^2 + (station_lon - lon)^2`.  The source
stores `distance = (...) ** 0.5` and compares distances with a strict
`<`; since `x ↦ x ** 0.5` is strictly increasing on the non-negative
reals, comparing the squares yields the identical selection, so the
model tracks the squared distance and takes the root only for
display. -/
def stationEntry (lat lon : ℚ) (st : JVal) : Except String (JVal × ℚ) := do
  let g ← st.getKey "geometry"
  let cs ← g.getKey "coordinates"
  let slatJ ← cs.getIdx 1
  let slonJ ← cs.getIdx 0
  let slat ← pyFloatOf slatJ
  let slon ← pyFloatOf slonJ
  .ok (st, (slat - lat) ^ 2 + (slon - lon) ^ 2)

/-- The nearest-station selection over already-computed entries: the
accumulator is `none` for (`nearest_station = None`,
`min_distance = inf`) and otherwise holds the current winner and its
squared distance; a new station wins only by a strictly smaller
distance (line 244), so the first station encountered wins ties. -/
def nearestFold : List (JVal × ℚ) → Option (JVal × ℚ) → Option (JVal × ℚ)
  | [], acc => acc
  | p :: rest, none => nearestFold rest (some p)
  | p :: rest, some q =>
    if p.2 < q.2 then nearestFold rest (some p) else nearestFold rest (some q)

/-- The `for station in radar_data["features"]` loop (lines 239-246),
interleaving coordinate extraction (which can raise) with the
minimum-distance comparison. -/
def radarLoop (lat lon : ℚ) : List JVal → Option (JVal × ℚ) →
    Except String (Option (JVal × ℚ))
  | [], acc => .ok acc
  | st :: rest, acc =>
    match stationEntry lat lon st with
    | .error e => .error e
    | .ok p =>
      match acc with
      | none => radarLoop lat lon rest (some p)
      | some q =>
        if p.2 < q.2 then radarLoop lat lon rest (some p)
        else radarLoop lat lon rest (some q)

/-- The well-formedness witness used to state the nearest-station
property: the list of (station, squared distance) entries that the
radar loop computes when every feature has numeric coordinates;
`.error` as soon as one feature is malformed, exactly as the loop
itself. -/
def stationEntries (lat lon : ℚ) : List JVal → Except String (List (JVal × ℚ))
  | [] => .ok []
  | st :: rest =>
    match stationEntry lat lon st with
    | .error e => .error e
    | .ok p =>
      match stationEntries lat lon rest with
      | .error e => .error e
      | .ok ps => .ok (p :: ps)

/-- Floor integer square root by the classic base-4 recursion,
structurally recursive on a fuel argument (the recursion depth is
logarithmic, so any fuel of at least `n` suffices and evaluation is
fast). -/
def isqrtAux : Nat → Nat → Nat
  | 0, _ => 0
  | fuel + 1, n =>
    if n = 0 then 0
    else
      let r := 2 * isqrtAux fuel (n / 4)
      if (r + 1) * (r + 1) ≤ n then r + 1 else r

/-- `⌊√n⌋` for natural `n`. -/
def isqrt (n : Nat) : Nat := isqrtAux n n

/-- The 2-decimal rendering `f"{min_distance:.2f}"` of the distance,
computed from its square: round-to-nearest of `100 * sqrt(dsq)` via
integer square roots (half-way cases round up rather than using binary
float round-half-even; no value in this development sits on a half-way
point). -/
def dist2dp (dsq : ℚ) : String :=
  let p := dsq.num.toNat
  let q := dsq.den
  let n := (isqrt (4 * (10000 * p * q)) + q) / (2 * q)
  let whole := n / 100
  let frac := n % 100
  toString whole ++ "." ++
    (if frac < 10 then "0" ++ toString frac else toString frac)

/-- The radar report f-string (lines 251-256). -/
def formatRadar (st : JVal) (dsq : ℚ) : Except String String := do
  let props ← st.getKey "properties"
  let nm ← props.pyGet "name" (.str "Unknown")
  let loc ← props.pyGet "location" (.str "Unknown")
  let status ← props.pyGet "status" (.str "Unknown")
  .ok ("Nearest Radar Station: " ++ nm.pyStr ++ "\nLocation: " ++
    loc.pyStr ++ "\nStatus: " ++ status.pyStr ++ "\nDistance: " ++
    dist2dp dsq ++ " degrees\n")

/-- `WeatherModel.get_radar_data` (lines 220-256). -/
def get_radar_data (net : Net) (now : String) (ctx0 : WeatherContext)
    (lat lon : ℚ) : Except String String × WeatherContext :=
  let ctx1 := update_context now ctx0 lat lon none
  let r1 := make_nws_request net now ctx1 (points_url lat lon)
  let ctx2 := r1.2
  match r1.1 with
  | none => (.ok "Unable to fetch location data.", ctx2)
  | some pd =>
  if !pd.truthy then (.ok "Unable to fetch location data.", ctx2) else
  let r2 := make_nws_request net now ctx2 radar_url
  let ctx3 := r2.2
  match r2.1 with
  | none => (.ok "Unable to fetch radar data.", ctx3)
  | some rd =>
  if !rd.truthy then (.ok "Unable to fetch radar data.", ctx3) else
  match rd.pyIn "features" with
  | .error e => (.error e, ctx3)
  | .ok false => (.ok "Unable to fetch radar data.", ctx3)
  | .ok true =>
  match rd.getKey "features" with
  | .error e => (.error e, ctx3)
  | .ok featsJ =>
  match featsJ.asArr with
  | .error e => (.error e, ctx3)
  | .ok feats =>
  match radarLoop lat lon feats none with
  | .error e => (.error e, ctx3)
  | .ok none => (.ok "No radar stations found nearby.", ctx3)
  | .ok (some p) =>
  if !p.1.truthy then (.ok "No radar stations found nearby.", ctx3) else
  match formatRadar p.1 p.2 with
  | .error e => (.error e, ctx3)
  | .ok s => (.ok s, ctx3)

/-- The alert dictionary built from one feature's properties
(lines 271-278). -/
def alertFromProps (props : JVal) : Except String AlertRecord := do
  let ev ← props.pyGet "event" (.str "Unknown")
  let ar ← props.pyGet "areaDesc" (.str "Unknown")
  let sv ← props.pyGet "severity" (.str "Unknown")
  let de ← props.pyGet "description" (.str "No description available")
  let ins ← props.pyGet "instruction" (.str "No specific instructions provided")
  .ok ⟨ev, ar, sv, de, ins⟩

/-- `feature["properties"]` then the alert dictionary (lines 270-278). -/
def featureAlert (f : JVal) : Except String AlertRecord :=
  (f.getKey "properties").bind alertFromProps

/-- Entry extraction for a whole feature list: the alert records
`get_alerts` builds when every feature is well formed; `.error` at the
first malformed feature, exactly as the loop itself. -/
def featureAlerts : List JVal → Except String (List AlertRecord)
  | [] => .ok []
  | f :: rest =>
    match featureAlert f with
    | .error e => .error e
    | .ok a =>
      match featureAlerts rest with
      | .error e => .error e
      | .ok as => .ok (a :: as)

/-- The `for feature in data["features"]` loop (lines 269-280): each
iteration appends to the local `alerts` list and to
`context.alert_history`; an exception mid-loop keeps the appends made
so far. -/
def alertsLoop : List JVal → List AlertRecord → WeatherContext →
    Except String (List AlertRecord) × WeatherContext
  | [], acc, ctx => (.ok acc, ctx)
  | f :: rest, acc, ctx =>
    match featureAlert f with
    | .error e => (.error e, ctx)
    | .ok a =>
      alertsLoop rest (acc ++ [a])
        { ctx with alert_history := ctx.alert_history ++ [a] }

/-- One block of the alerts report (lines 286-291). -/
def formatAlert (a : AlertRecord) : String :=
  "Event: " ++ a.event.pyStr ++ "\nArea: " ++ a.area.pyStr ++
  "\nSeverity: " ++ a.severity.pyStr ++ "\nDescription: " ++
  a.description.pyStr ++ "\nInstructions: " ++ a.instructions.pyStr

/-- `WeatherModel.get_alerts` (lines 258-293). -/
def get_alerts (net : Net) (now : String) (ctx0 : WeatherContext)
    (state : String) : Except String String × WeatherContext :=
  let r1 := make_nws_request net now ctx0 (alerts_url state)
  let ctx1 := r1.2
  match r1.1 with
  | none => (.ok "Unable to fetch alerts or no alerts found.", ctx1)
  | some d =>
  if !d.truthy then (.ok "Unable to fetch alerts or no alerts found.", ctx1) else
  match d.pyIn "features" with
  | .error e => (.error e, ctx1)
  | .ok false => (.ok "Unable to fetch alerts or no alerts found.", ctx1)
  | .ok true =>
  match d.getKey "features" with
  | .error e => (.error e, ctx1)
  | .ok featsJ =>
  if !featsJ.truthy then (.ok "No active alerts for this state.", ctx1) else
  match featsJ.asArr with
  | .error e => (.error e, ctx1)
  | .ok feats =>
  match alertsLoop feats [] ctx1 with
  | (.error e, ctx2) => (.error e, ctx2)
  | (.ok alerts, ctx2) =>
  let ctx3 := { ctx2 with alert_history := takeLast 50 ctx2.alert_history }
  (.ok (String.intercalate "\n---\n" (alerts.map formatAlert)), ctx3)

/-- The monitoring report f-string (lines 320-327). -/
def formatMonitor (current : JVal) (now : String) (interval_minutes : Int) :
    Except String String := do
  let t ← current.pyGet "temperature" (.str "N/A")
  let sf ← current.pyGet "shortForecast" (.str "N/A")
  let ws ← current.pyGet "windSpeed" (.str "N/A")
  let wd ← current.pyGet "windDirection" (.str "")
  let rh ← current.pyGet "relativeHumidity" (.obj [])
  let rhv ← rh.pyGet "value" (.str "N/A")
  .ok ("Weather Monitoring (Last Updated: " ++ now ++ ")\nTemperature: " ++
    t.pyStr ++ "°F\nConditions: " ++ sf.pyStr ++ "\nWind: " ++ ws.pyStr ++
    " " ++ wd.pyStr ++ "\nHumidity: " ++ rhv.pyStr ++
    "%\nUpdate Interval: " ++ toString interval_minutes ++ " minutes\n")

/-- `WeatherModel.monitor_conditions` (lines 295-327).  Note the source
overwrites `monitoring_settings` (lines 298-303) immediately after
recording the location and before the first fetch. -/
def monitor_conditions (net : Net) (now : String) (ctx0 : WeatherContext)
    (lat lon : ℚ) (interval_minutes : Int) : Except String String × WeatherContext :=
  let ctx1 := update_context now ctx0 lat lon none
  let ctx2 :=
    { ctx1 with monitoring_settings := some ⟨lat, lon, interval_minutes, now⟩ }
  let r1 := make_nws_request net now ctx2 (points_url lat lon)
  let ctx3 := r1.2
  match r1.1 with
  | none => (.ok "Unable to fetch location data.", ctx3)
  | some pd =>
  if !pd.truthy then (.ok "Unable to fetch location data.", ctx3) else
  match (pd.getKey "properties").bind (fun p => p.getKey "forecast") with
  | .error e => (.error e, ctx3)
  | .ok furl =>
  let r2 := make_nws_request net now ctx3 furl.pyStr
  let ctx4 := r2.2
  match r2.1 with
  | none => (.ok "Unable to fetch forecast data.", ctx4)
  | some fd =>
  if !fd.truthy then (.ok "Unable to fetch forecast data.", ctx4) else
  match fd.pyIn "properties" with
  | .error e => (.error e, ctx4)
  | .ok false => (.ok "Unable to fetch forecast data.", ctx4)
  | .ok true =>
  match (fd.getKey "properties").bind
      (fun p => (p.getKey "periods").bind (fun ps => ps.getIdx 0)) with
  | .error e => (.error e, ctx4)
  | .ok current =>
  match formatMonitor current now interval_minutes with
  | .error e => (.error e, ctx4)
  | .ok s => (.ok s, ctx4)

/-! ## Spec-shaped alert forms and concrete scenario data -/

/-- The spec's description of the temperature rule: a single
below-minimum alert, else a single above-maximum alert, else nothing
(used to compare `check_alert_conditions` against the spec's words). -/
def tempAlertsSpec (th : AlertThresholds) (t : ℚ) : List String :=
  if t < th.temperature.min then [tempBelowMsg t]
  else if t > th.temperature.max then [tempAboveMsg t]
  else []

/-- The spec's description of the wind rule: a single exceeds-maximum
alert when the wind speed is above the wind maximum. -/
def windAlertsSpec (th : AlertThresholds) (w : ℚ) : List String :=
  if w > th.wind_speed.max then [windMsg w] else []

/-- A transport on which every request raises (e.g. a timeout). -/
def netFail : Net := fun _ => .error "timeout"

/-- A transport whose every response is a truthy object that lacks the
"properties" key. -/
def netNoProps : Net := fun _ => .ok (.obj [("status", .str "ok")])

/-- A transport whose every response has "properties" but no forecast
endpoint fields inside it. -/
def netNoForecast : Net :=
  fun _ => .ok (.obj [("properties", .obj [("gridId", .str "X")])])

/-- A radar-station feature at latitude 0, longitude 0 (GeoJSON
coordinate order is `[lon, lat]`). -/
def st00 : JVal :=
  .obj [("geometry", .obj [("coordinates", .arr [.num 0, .num 0])]),
        ("properties", .obj [("name", .str "A"), ("location", .str "Alpha"),
                             ("status", .str "up")])]

/-- A radar-station feature at latitude 1, longitude 1. -/
def st11 : JVal :=
  .obj [("geometry", .obj [("coordinates", .arr [.num 1, .num 1])]),
        ("properties", .obj [("name", .str "B"), ("location", .str "Bravo"),
                             ("status", .str "up")])]

/-- A transport serving a truthy points response and the two-station
radar list. -/
def netRadar : Net := fun url =>
  if url = radar_url then .ok (.obj [("features", .arr [st00, st11])])
  else .ok (.obj [("ok", .num 1)])

/-- A transport serving an empty radar feature list. -/
def netRadarEmpty : Net := fun url =>
  if url = radar_url then .ok (.obj [("features", .arr [])])
  else .ok (.obj [("ok", .num 1)])

/-- One active-alert feature with a properties dictionary. -/
def alertFeature : JVal :=
  .obj [("properties", .obj [("event", .str "Flood"),
                             ("severity", .str "Severe")])]

/-- A transport returning the same alert feature twice. -/
def netAlerts2 : Net :=
  fun _ => .ok (.obj [("features", .arr [alertFeature, alertFeature])])

/-- The alert record `get_alerts` builds from `alertFeature` (missing
keys replaced by the source's defaults). -/
def aRec : AlertRecord :=
  { event := .str "Flood"
    area := .str "Unknown"
    severity := .str "Severe"
    description := .str "No description available"
    instructions := .str "No specific instructions provided" }

/-! ## Frame lemmas: which fields each state transformer touches -/

@[simp] theorem make_nws_request_location (net : Net) (now : String)
    (ctx : WeatherContext) (url : String) :
    (make_nws_request net now ctx url).2.location_history = ctx.location_history := by
  unfold make_nws_request; cases net url <;> rfl

@[simp] theorem make_nws_request_interactions (net : Net) (now : String)
    (ctx : WeatherContext) (url : String) :
    (make_nws_request net now ctx url).2.user_interactions = ctx.user_interactions := by
  unfold make_nws_request; cases net url <;> rfl

@[simp] theorem make_nws_request_trends (net : Net) (now : String)
    (ctx : WeatherContext) (url : String) :
    (make_nws_request net now ctx url).2.weather_trends = ctx.weather_trends := by
  unfold make_nws_request; cases net url <;> rfl

@[simp] theorem make_nws_request_alert_history (net : Net) (now : String)
    (ctx : WeatherContext) (url : String) :
    (make_nws_request net now ctx url).2.alert_history = ctx.alert_history := by
  unfold make_nws_request; cases net url <;> rfl

@[simp] theorem make_nws_request_monitoring (net : Net) (now : String)
    (ctx : WeatherContext) (url : String) :
    (make_nws_request net now ctx url).2.monitoring_settings = ctx.monitoring_settings := by
  unfold make_nws_request; cases net url <;> rfl

@[simp] theorem make_nws_request_thresholds (net : Net) (now : String)
    (ctx : WeatherContext) (url : String) :
    (make_nws_request net now ctx url).2.alert_thresholds = ctx.alert_thresholds := by
  unfold make_nws_request; cases net url <;> rfl

@[simp] theorem make_nws_request_preferences (net : Net) (now : String)
    (ctx : WeatherContext) (url : String) :
    (make_nws_request net now ctx url).2.user_preferences = ctx.user_preferences := by
  unfold make_nws_request; cases net url <;> rfl

@[simp] theorem update_context_location (now : String) (ctx : WeatherContext)
    (lat lon : ℚ) (st : Option String) :
    (update_context now ctx lat lon st).location_history =
      pushBounded 10 ctx.location_history ⟨lat, lon, st, now⟩ := rfl

@[simp] theorem update_context_queries (now : String) (ctx : WeatherContext)
    (lat lon : ℚ) (st : Option String) :
    (update_context now ctx lat lon st).last_queries = ctx.last_queries := rfl

@[simp] theorem update_context_interactions (now : String) (ctx : WeatherContext)
    (lat lon : ℚ) (st : Option String) :
    (update_context now ctx lat lon st).user_interactions = ctx.user_interactions := rfl

@[simp] theorem update_context_trends (now : String) (ctx : WeatherContext)
    (lat lon : ℚ) (st : Option String) :
    (update_context now ctx lat lon st).weather_trends = ctx.weather_trends := rfl

@[simp] theorem update_context_alert_history (now : String) (ctx : WeatherContext)
    (lat lon : ℚ) (st : Option String) :
    (update_context now ctx lat lon st).alert_history = ctx.alert_history := rfl

@[simp] theorem update_context_monitoring (now : String) (ctx : WeatherContext)
    (lat lon : ℚ) (st : Option String) :
    (update_context now ctx lat lon st).monitoring_settings = ctx.monitoring_settings := rfl

@[simp] theorem update_context_thresholds (now : String) (ctx : WeatherContext)
    (lat lon : ℚ) (st : Option String) :
    (update_context now ctx lat lon st).alert_thresholds = ctx.alert_thresholds := rfl

@[simp] theorem update_context_preferences (now : String) (ctx : WeatherContext)
    (lat lon : ℚ) (st : Option String) :
    (update_context now ctx lat lon st).user_preferences = ctx.user_preferences := rfl

@[simp] theorem add_interaction_location (now : String) (ctx : WeatherContext)
    (action : String) (d : InteractionDetails) :
    (add_interaction now ctx action d).location_history = ctx.location_history := rfl

@[simp] theorem add_interaction_monitoring (now : String) (ctx : WeatherContext)
    (action : String) (d : InteractionDetails) :
    (add_interaction now ctx action d).monitoring_settings = ctx.monitoring_settings := rfl

@[simp] theorem update_weather_trends_location (now : String) (ctx : WeatherContext)
    (c : Conditions) :
    (update_weather_trends now ctx c).location_history = ctx.location_history := rfl

@[simp] theorem update_weather_trends_monitoring (now : String) (ctx : WeatherContext)
    (c : Conditions) :
    (update_weather_trends now ctx c).monitoring_settings = ctx.monitoring_settings := rfl

@[simp] theorem update_weather_trends_thresholds (now : String) (ctx : WeatherContext)
    (c : Conditions) :
    (update_weather_trends now ctx c).alert_thresholds = ctx.alert_thresholds := rfl

/-! ## C1 / C2: the derived-alert rules -/

/-- C1: for every conditions snapshot whose temperature and wind_speed
fields are present and truthy and every threshold configuration,
`check_alert_conditions` returns exactly the temperature alert (a
single "below minimum" alert if the temperature is under the minimum,
else a single "above maximum" alert if over the maximum, else none —
mutually exclusive, matching the elif) followed by the single wind
"exceeds maximum" alert when the wind speed is over the wind maximum;
the temperature alert always precedes the wind alert. -/
theorem C1_derive_alerts (th : AlertThresholds) (t w : ℚ) (co : Option JVal)
    (hu : Option ℚ) (ht : t ≠ 0) (hw : w ≠ 0) :
    check_alert_conditions th ⟨some t, some w, co, hu⟩ =
      tempAlertsSpec th t ++ windAlertsSpec th w := by
  simp only [check_alert_conditions, truthyNum, tempAlertsSpec, windAlertsSpec,
    Option.getD_some, bne_iff_ne, ne_eq, ht, not_false_eq_true, if_true, hw]
  by_cases h1 : t < th.temperature.min <;>
    by_cases h2 : t > th.temperature.max <;>
    by_cases h3 : w > th.wind_speed.max <;>
    simp [h1, h2, h3]

/-- Witness for C1 at the spec's own example: thresholds
`{temp:[32,90], wind max 30}` and snapshot `{temperature:95,
wind_speed:10}` give exactly the single "above maximum" alert. -/
theorem C1_witness :
    check_alert_conditions defaultAlertThresholds ⟨some 95, some 10, none, none⟩ =
      tempAlertsSpec defaultAlertThresholds 95 ++ windAlertsSpec defaultAlertThresholds 10 :=
  C1_derive_alerts defaultAlertThresholds 95 10 none none (by norm_num) (by norm_num)

/-- C2 counterexample: with the default thresholds (temperature minimum
32), a snapshot whose temperature field is absent yields NO temperature
alert at all — `if conditions.get("temperature"):` skips the comparison
for a missing field — contradicting the claimed "below minimum" alert
from comparing the defaulted 0 against 32. -/
theorem C2_counterexample :
    check_alert_conditions defaultAlertThresholds ⟨none, some 10, none, none⟩ = []
  ∧ (0 : ℚ) < defaultAlertThresholds.temperature.min := by
  refine ⟨rfl, by norm_num [defaultAlertThresholds]⟩

/-- C2 (amended): in `check_alert_conditions` a snapshot field that is
missing — or zero, which is equally falsy — is skipped entirely: no
threshold comparison happens and no alert is emitted for that field
(rather than comparing it as 0), while the other field is still checked
normally. -/
theorem C2_amended (th : AlertThresholds) (ot ow : Option ℚ) (co : Option JVal)
    (hu : Option ℚ) :
    (check_alert_conditions th ⟨none, ow, co, hu⟩ =
      if truthyNum ow then windAlertsSpec th (ow.getD 0) else [])
  ∧ (check_alert_conditions th ⟨some 0, ow, co, hu⟩ =
      if truthyNum ow then windAlertsSpec th (ow.getD 0) else [])
  ∧ (check_alert_conditions th ⟨ot, none, co, hu⟩ =
      if truthyNum ot then tempAlertsSpec th (ot.getD 0) else [])
  ∧ (check_alert_conditions th ⟨ot, some 0, co, hu⟩ =
      if truthyNum ot then tempAlertsSpec th (ot.getD 0) else []) := by
  refine ⟨?_, ?_, ?_, ?_⟩ <;>
    simp only [check_alert_conditions, truthyNum, tempAlertsSpec, windAlertsSpec] <;>
    repeat' split <;> simp_all

/-! ## C5: the Gateway failure contract -/

/-- C5: for every URL and every failing transport outcome,
`make_nws_request` returns the absence value `None` (it cannot
propagate an exception: the whole body is inside `try/except`) and
appends exactly one failed-query record `{url, error, timestamp}` to
`last_queries`. -/
theorem C5_gateway_failure (net : Net) (now url e : String)
    (ctx : WeatherContext) (h : net url = .error e) :
    make_nws_request net now ctx url =
      (none, { ctx with last_queries := ctx.last_queries ++ [⟨url, e, now⟩] }) := by
  simp [make_nws_request, h]

/-- Witness for C5: a timeout on a concrete URL from the fresh context. -/
theorem C5_witness :
    make_nws_request netFail "t0" WeatherContext.init "u" =
      (none, { WeatherContext.init with last_queries := [⟨"u", "timeout", "t0"⟩] }) :=
  C5_gateway_failure netFail "t0" "u" "timeout" WeatherContext.init rfl

/-! ## C6: when `monitor_conditions` writes the monitoring slot -/

/-- C6 counterexample: with a transport on which every fetch fails,
`monitor_conditions` still overwrites `monitoring_settings` (the write
happens before the points fetch, lines 298-303), while returning the
"Unable to fetch location data." sentinel — the slot is NOT left
unchanged on failure. -/
theorem C6_counterexample :
    (monitor_conditions netFail "t0" WeatherContext.init 1 2 15).1 =
      .ok "Unable to fetch location data."
  ∧ (monitor_conditions netFail "t0" WeatherContext.init 1 2 15).2.monitoring_settings =
      some ⟨1, 2, 15, "t0"⟩
  ∧ WeatherContext.init.monitoring_settings = none :=
  ⟨rfl, rfl, rfl⟩

/-- C6 (amended): `monitor_conditions` records the location and then
immediately overwrites `MonitoringSettings` with the requested
coordinates, interval and timestamp BEFORE any fetch; the slot is
overwritten on every call, whether or not the points or forecast fetch
succeeds. -/
theorem C6_amended (net : Net) (now : String) (ctx : WeatherContext)
    (lat lon : ℚ) (iv : Int) :
    (monitor_conditions net now ctx lat lon iv).2.monitoring_settings =
      some ⟨lat, lon, iv, now⟩ := by
  simp only [monitor_conditions]
  repeat' split
  all_goals simp

/-! ## C9 / C10: frame effects of the location-based operations -/

/-- The exact growth of `last_queries` across one Gateway call: nothing
on success, one record on failure. -/
theorem make_nws_request_queries (net : Net) (now : String)
    (ctx : WeatherContext) (url : String) :
    (make_nws_request net now ctx url).2.last_queries =
      ctx.last_queries ++ (match net url with
        | .ok _ => []
        | .error e => [⟨url, e, now⟩]) := by
  unfold make_nws_request
  cases net url <;> simp

/-- C9 counterexample: when the points fetch of `get_hourly_forecast`
fails, `last_queries` — one of the fields the claim says is unchanged —
gains a failed-query record. -/
theorem C9_counterexample :
    (get_hourly_forecast netFail "t0" WeatherContext.init 1 2).2.last_queries =
      [⟨points_url 1 2, "timeout", "t0"⟩]
  ∧ WeatherContext.init.last_queries = [] :=
  ⟨rfl, rfl⟩

/-- C9 (amended): every Session Context field other than
`location_history` and `last_queries` (i.e. `user_interactions`,
`weather_trends`, `alert_history`, `monitoring_settings`,
`alert_thresholds`, and `user_preferences`) is unchanged by any
invocation of `get_hourly_forecast`; `last_queries` itself only ever
grows by appended failed-query records (in particular it is unchanged
when every Gateway fetch succeeds, and changes exactly when a fetch
fails). -/
theorem C9_amended (net : Net) (now : String) (ctx : WeatherContext)
    (lat lon : ℚ) :
    ((get_hourly_forecast net now ctx lat lon).2.user_interactions = ctx.user_interactions)
  ∧ ((get_hourly_forecast net now ctx lat lon).2.weather_trends = ctx.weather_trends)
  ∧ ((get_hourly_forecast net now ctx lat lon).2.alert_history = ctx.alert_history)
  ∧ ((get_hourly_forecast net now ctx lat lon).2.monitoring_settings = ctx.monitoring_settings)
  ∧ ((get_hourly_forecast net now ctx lat lon).2.alert_thresholds = ctx.alert_thresholds)
  ∧ ((get_hourly_forecast net now ctx lat lon).2.user_preferences = ctx.user_preferences)
  ∧ (∃ qs, (get_hourly_forecast net now ctx lat lon).2.last_queries =
      ctx.last_queries ++ qs) := by
  refine ⟨?_, ?_, ?_, ?_, ?_, ?_, ?_⟩ <;>
    simp only [get_hourly_forecast] <;>
    repeat' split
  all_goals
    simp only [make_nws_request_queries, update_context_queries, List.append_assoc]
  all_goals simp

/-- C10: every location-based operation (`get_current_conditions`,
`get_hourly_forecast`, `get_daily_forecast`, `get_radar_data`,
`monitor_conditions`) pushes exactly one `LocationRecord` with
`state = None` onto `location_history` (bounded at 10), for EVERY
transport behaviour — in particular also when every fetch fails and
the call returns an "Unable to fetch..." sentinel, since the record is
appended before any fetch; below capacity this grows the history by
exactly one entry. -/
theorem C10_location_recording (net : Net) (now : String)
    (ctx : WeatherContext) (lat lon : ℚ) (iv : Int) :
    ((get_current_conditions net now ctx lat lon).2.location_history =
      pushBounded 10 ctx.location_history ⟨lat, lon, none, now⟩)
  ∧ ((get_hourly_forecast net now ctx lat lon).2.location_history =
      pushBounded 10 ctx.location_history ⟨lat, lon, none, now⟩)
  ∧ ((get_daily_forecast net now ctx lat lon).2.location_history =
      pushBounded 10 ctx.location_history ⟨lat, lon, none, now⟩)
  ∧ ((get_radar_data net now ctx lat lon).2.location_history =
      pushBounded 10 ctx.location_history ⟨lat, lon, none, now⟩)
  ∧ ((monitor_conditions net now ctx lat lon iv).2.location_history =
      pushBounded 10 ctx.location_history ⟨lat, lon, none, now⟩)
  ∧ (ctx.location_history.length < 10 →
      (pushBounded 10 ctx.location_history ⟨lat, lon, none, now⟩).length =
        ctx.location_history.length + 1) := by
  refine ⟨?_, ?_, ?_, ?_, ?_, ?_⟩
  · simp only [get_current_conditions]
    repeat' split
    all_goals simp
  · simp only [get_hourly_forecast]
    repeat' split
    all_goals simp
  · simp only [get_daily_forecast]
    repeat' split
    all_goals simp
  · simp only [get_radar_data]
    repeat' split
    all_goals simp
  · simp only [monitor_conditions]
    repeat' split
    all_goals simp
  · intro h
    simp only [pushBounded, takeLast_length, List.length_append, List.length_cons,
      List.length_nil]
    omega

/-- Witness for C10: on a fresh context with a failing transport, the
monitor call still records the single location, and the growth bound is
realised. -/
theorem C10_witness :
    (monitor_conditions netFail "t0" WeatherContext.init 1 2 15).2.location_history =
      [⟨1, 2, none, "t0"⟩]
  ∧ (pushBounded 10 WeatherContext.init.location_history ⟨1, 2, none, "t0"⟩).length =
      WeatherContext.init.location_history.length + 1 := by
  have h := C10_location_recording netFail "t0" WeatherContext.init 1 2 15
  exact ⟨by rw [h.2.2.2.2.1]; rfl, h.2.2.2.2.2 (by decide)⟩

/-! ## C3: bounded histories hold the last C insertions -/

/-- Location insertions through `update_context` project onto the
generic bounded fold. -/
theorem foldl_update_context_location (now : String) (ls : List (ℚ × ℚ))
    (ctx : WeatherContext) :
    (ls.foldl (fun c p => update_context now c p.1 p.2 none) ctx).location_history =
      (ls.map fun p => (⟨p.1, p.2, none, now⟩ : LocationRecord)).foldl
        (pushBounded 10) ctx.location_history := by
  induction ls generalizing ctx with
  | nil => rfl
  | cons p ls ih => rw [List.foldl_cons, ih, List.map_cons, List.foldl_cons]; rfl

/-- Interaction insertions through `add_interaction` project onto the
generic bounded fold. -/
theorem foldl_add_interaction (now : String)
    (ias : List (String × InteractionDetails)) (ctx : WeatherContext) :
    (ias.foldl (fun c p => add_interaction now c p.1 p.2) ctx).user_interactions =
      (ias.map fun p => (⟨p.1, p.2, now⟩ : InteractionRecord)).foldl
        (pushBounded 100) ctx.user_interactions := by
  induction ias generalizing ctx with
  | nil => rfl
  | cons p l ih => rw [List.foldl_cons, ih, List.map_cons, List.foldl_cons]; rfl

/-- Trend insertions through `update_weather_trends` project onto the
generic bounded fold. -/
theorem foldl_update_weather_trends (now : String) (cs : List Conditions)
    (ctx : WeatherContext) :
    (cs.foldl (fun c x => update_weather_trends now c x) ctx).weather_trends =
      (cs.map fun x => (⟨x, now⟩ : TrendSample)).foldl
        (pushBounded 24) ctx.weather_trends := by
  induction cs generalizing ctx with
  | nil => rfl
  | cons p l ih => rw [List.foldl_cons, ih, List.map_cons, List.foldl_cons]; rfl

/-- C3: each bounded history, after any sequence of N insertions
through its Session Context operation starting from the fresh context,
has length `min N capacity` and holds exactly the last `capacity`
inserted records in insertion order (FIFO eviction from the oldest
end); the capacity (10 for locations, 100 for interactions, 24 for
trends, 50 for the alert batches appended-then-truncated by
`get_alerts`) is never exceeded. -/
theorem C3_bounded_histories (now : String) (ls : List (ℚ × ℚ))
    (ias : List (String × InteractionDetails)) (cs : List Conditions)
    (bs : List (List AlertRecord)) :
    ((ls.foldl (fun c p => update_context now c p.1 p.2 none)
        WeatherContext.init).location_history =
      takeLast 10 (ls.map fun p => (⟨p.1, p.2, none, now⟩ : LocationRecord)))
  ∧ ((ls.foldl (fun c p => update_context now c p.1 p.2 none)
        WeatherContext.init).location_history.length = min ls.length 10)
  ∧ ((ias.foldl (fun c p => add_interaction now c p.1 p.2)
        WeatherContext.init).user_interactions =
      takeLast 100 (ias.map fun p => (⟨p.1, p.2, now⟩ : InteractionRecord)))
  ∧ ((ias.foldl (fun c p => add_interaction now c p.1 p.2)
        WeatherContext.init).user_interactions.length = min ias.length 100)
  ∧ ((cs.foldl (fun c x => update_weather_trends now c x)
        WeatherContext.init).weather_trends =
      takeLast 24 (cs.map fun x => (⟨x, now⟩ : TrendSample)))
  ∧ ((cs.foldl (fun c x => update_weather_trends now c x)
        WeatherContext.init).weather_trends.length = min cs.length 24)
  ∧ (bs.foldl (fun hist b => takeLast 50 (hist ++ b)) [] = takeLast 50 bs.flatten)
  ∧ ((bs.foldl (fun hist b => takeLast 50 (hist ++ b)) []).length =
      min bs.flatten.length 50) := by
  have h1 := foldl_update_context_location now ls WeatherContext.init
  have h2 := foldl_add_interaction now ias WeatherContext.init
  have h3 := foldl_update_weather_trends now cs WeatherContext.init
  have e1 : (WeatherContext.init).location_history = [] := rfl
  have e2 : (WeatherContext.init).user_interactions = [] := rfl
  have e3 : (WeatherContext.init).weather_trends = [] := rfl
  rw [e1] at h1; rw [e2] at h2; rw [e3] at h3
  rw [foldl_pushBounded 10 _ [] (by simp)] at h1
  rw [foldl_pushBounded 100 _ [] (by simp)] at h2
  rw [foldl_pushBounded 24 _ [] (by simp)] at h3
  simp only [List.nil_append] at h1 h2 h3
  have h4 := foldl_batchBounded 50 bs [] (by simp)
  simp only [List.nil_append] at h4
  refine ⟨h1, ?_, h2, ?_, h3, ?_, h4, ?_⟩
  · rw [h1, takeLast_length, List.length_map]
  · rw [h2, takeLast_length, List.length_map]
  · rw [h3, takeLast_length, List.length_map]
  · rw [h4, takeLast_length]

/-! ## C4: missing upstream keys in the points response -/

/-- C4 (the code contradicts this claim): when the points response is
present (truthy) but lacks the "properties" key — or has "properties"
without the "forecast"/"forecastHourly" endpoint key — the raw lookups
`points_data["properties"]["forecast"]` (line 117, similarly 171, 200)
raise a `KeyError` that escapes the operation, instead of the
"Unable to fetch..." sentinel that the spec requires for missing
upstream keys. -/
theorem C4_missing_key_escapes :
    (get_current_conditions netNoProps "t0" WeatherContext.init 1 2).1 =
      .error "KeyError: properties"
  ∧ (get_hourly_forecast netNoProps "t0" WeatherContext.init 1 2).1 =
      .error "KeyError: properties"
  ∧ (get_daily_forecast netNoProps "t0" WeatherContext.init 1 2).1 =
      .error "KeyError: properties"
  ∧ (get_current_conditions netNoForecast "t0" WeatherContext.init 1 2).1 =
      .error "KeyError: forecast"
  ∧ (get_hourly_forecast netNoForecast "t0" WeatherContext.init 1 2).1 =
      .error "KeyError: forecastHourly" :=
  ⟨rfl, rfl, rfl, rfl, rfl⟩

/-! ## C7: nearest radar station -/

/-- The interleaved radar loop equals entry extraction followed by the
pure strict-minimum fold. -/
theorem radarLoop_eq (lat lon : ℚ) (sts : List JVal) (acc : Option (JVal × ℚ)) :
    radarLoop lat lon sts acc =
      (stationEntries lat lon sts).map (fun ps => nearestFold ps acc) := by
  induction sts generalizing acc with
  | nil => rfl
  | cons st sts ih =>
    cases h : stationEntry lat lon st with
    | error e => simp [radarLoop, stationEntries, h, Except.map]
    | ok p =>
      cases acc with
      | none =>
        simp only [radarLoop, stationEntries, h, ih]
        cases hm : stationEntries lat lon sts <;> simp [Except.map, nearestFold]
      | some q =>
        by_cases hc : p.2 < q.2 <;>
          simp only [radarLoop, stationEntries, h, hc, if_true, if_false, ih] <;>
          cases hm : stationEntries lat lon sts <;>
          simp [Except.map, nearestFold, hc]

theorem nearestFold_acc_spec (ps : List (JVal × ℚ)) (s0 : JVal) (m0 : ℚ) :
    (nearestFold ps (some (s0, m0)) = some (s0, m0) ∧ ∀ p ∈ ps, m0 ≤ p.2)
  ∨ (∃ i, ∃ h : i < ps.length,
      nearestFold ps (some (s0, m0)) = some (ps.get ⟨i, h⟩)
      ∧ (ps.get ⟨i, h⟩).2 < m0
      ∧ (∀ j (hj : j < ps.length), (ps.get ⟨i, h⟩).2 ≤ (ps.get ⟨j, hj⟩).2)
      ∧ (∀ j (hj : j < ps.length), j < i → (ps.get ⟨i, h⟩).2 < (ps.get ⟨j, hj⟩).2)) := by
  induction ps generalizing s0 m0 with
  | nil => left; exact ⟨rfl, by simp⟩
  | cons p rest ih =>
    by_cases hc : p.2 < m0
    · -- the head strictly improves: it becomes the champion going in
      have step : nearestFold (p :: rest) (some (s0, m0)) = nearestFold rest (some p) := by
        simp [nearestFold, hc]
      rcases ih p.1 p.2 with ⟨heq, hall⟩ | ⟨i, hi, heq, hlt, hmin, hfirst⟩
      · right
        refine ⟨0, by simp, ?_, hc, ?_, ?_⟩
        · rw [step, heq]; simp
        · intro j hj
          cases j with
          | zero => simp
          | succ j =>
            have hj' : j < rest.length := by
              simp only [List.length_cons] at hj; omega
            simp only [List.get_cons_succ, List.get_cons_zero]
            exact hall _ (rest.get_mem j hj')
        · intro j hj hji; omega
      · right
        have hi' : i + 1 < (p :: rest).length := by
          simp only [List.length_cons]; omega
        refine ⟨i + 1, hi', ?_, ?_, ?_, ?_⟩
        · rw [step, heq]; simp
        · exact lt_trans hlt hc
        · intro j hj
          cases j with
          | zero =>
            simp only [List.get_cons_succ, List.get_cons_zero]
            exact le_of_lt hlt
          | succ j =>
            have hj' : j < rest.length := by
              simp only [List.length_cons] at hj; omega
            simp only [List.get_cons_succ]
            exact hmin j hj'
        · intro j hj hji
          cases j with
          | zero =>
            simp only [List.get_cons_succ, List.get_cons_zero]
            exact hlt
          | succ j =>
            have hj' : j < rest.length := by
              simp only [List.length_cons] at hj; omega
            simp only [List.get_cons_succ]
            exact hfirst j hj' (by omega)
    · -- the champion survives the head comparison
      have step : nearestFold (p :: rest) (some (s0, m0)) =
          nearestFold rest (some (s0, m0)) := by
        simp [nearestFold, hc]
      have hm0p : m0 ≤ p.2 := le_of_not_lt hc
      rcases ih s0 m0 with ⟨heq, hall⟩ | ⟨i, hi, heq, hlt, hmin, hfirst⟩
      · left
        refine ⟨by rw [step, heq], ?_⟩
        intro x hx
        rcases List.mem_cons.mp hx with hx | hx
        · rw [hx]; exact hm0p
        · exact hall x hx
      · right
        have hi' : i + 1 < (p :: rest).length := by
          simp only [List.length_cons]; omega
        refine ⟨i + 1, hi', ?_, hlt, ?_, ?_⟩
        · rw [step, heq]; simp
        · intro j hj
          cases j with
          | zero =>
            simp only [List.get_cons_succ, List.get_cons_zero]
            exact le_of_lt (lt_of_lt_of_le hlt hm0p)
          | succ j =>
            have hj' : j < rest.length := by
              simp only [List.length_cons] at hj; omega
            simp only [List.get_cons_succ]
            exact hmin j hj'
        · intro j hj hji
          cases j with
          | zero =>
            simp only [List.get_cons_succ, List.get_cons_zero]
            exact lt_of_lt_of_le hlt hm0p
          | succ j =>
            have hj' : j < rest.length := by
              simp only [List.length_cons] at hj; omega
            simp only [List.get_cons_succ]
            exact hfirst j hj' (by omega)

theorem nearestFold_argmin (ps : List (JVal × ℚ)) (hne : ps ≠ []) :
    ∃ i, ∃ h : i < ps.length,
      nearestFold ps none = some (ps.get ⟨i, h⟩)
      ∧ (∀ j (hj : j < ps.length), (ps.get ⟨i, h⟩).2 ≤ (ps.get ⟨j, hj⟩).2)
      ∧ (∀ j (hj : j < ps.length), j < i → (ps.get ⟨i, h⟩).2 < (ps.get ⟨j, hj⟩).2) := by
  cases ps with
  | nil => exact absurd rfl hne
  | cons p rest =>
    have step : nearestFold (p :: rest) none = nearestFold rest (some p) := rfl
    rcases nearestFold_acc_spec rest p.1 p.2 with ⟨heq, hall⟩ | ⟨i, hi, heq, hlt, hmin, hfirst⟩
    · refine ⟨0, by simp, ?_, ?_, ?_⟩
      · rw [step, heq]; simp
      · intro j hj
        cases j with
        | zero => simp
        | succ j =>
          have hj' : j < rest.length := by
            simp only [List.length_cons] at hj; omega
          simp only [List.get_cons_succ, List.get_cons_zero]
          exact hall _ (rest.get_mem j hj')
      · intro j hj hji; omega
    · have hi' : i + 1 < (p :: rest).length := by
        simp only [List.length_cons]; omega
      refine ⟨i + 1, hi', ?_, ?_, ?_⟩
      · rw [step, heq]; simp
      · intro j hj
        cases j with
        | zero =>
          simp only [List.get_cons_succ, List.get_cons_zero]
          exact le_of_lt hlt
        | succ j =>
          have hj' : j < rest.length := by
            simp only [List.length_cons] at hj; omega
          simp only [List.get_cons_succ]
          exact hmin j hj'
      · intro j hj hji
        cases j with
        | zero =>
          simp only [List.get_cons_succ, List.get_cons_zero]
          exact hlt
        | succ j =>
          have hj' : j < rest.length := by
            simp only [List.length_cons] at hj; omega
          simp only [List.get_cons_succ]
          exact hfirst j hj' (by omega)

/-- C7: over a non-empty well-formed station feature list, the radar
loop selects the (first) station minimising the Euclidean distance in
degrees — stated via squared distances, an equivalent comparison since
the square root is strictly increasing — with ties broken in favour of
the first station encountered (strict less-than, stable).  On the
spec's concrete scenario, stations at (0,0) and (1,1) with query point
(0.1, 0.1) resolve to the (0,0) station at squared distance 1/50,
whose square root lies in [0.1414, 0.1415) — i.e. distance ≈ 0.1414 —
displayed at 2 decimals as "0.14"; and with an empty feature list the
operation returns "No radar stations found nearby.". -/
theorem C7_radar_nearest (lat lon : ℚ) (features : List JVal)
    (ps : List (JVal × ℚ)) (hwf : stationEntries lat lon features = .ok ps)
    (hne : ps ≠ []) :
    (∃ i, ∃ h : i < ps.length,
      radarLoop lat lon features none = .ok (some (ps.get ⟨i, h⟩))
      ∧ (∀ j (hj : j < ps.length), (ps.get ⟨i, h⟩).2 ≤ (ps.get ⟨j, hj⟩).2)
      ∧ (∀ j (hj : j < ps.length), j < i → (ps.get ⟨i, h⟩).2 < (ps.get ⟨j, hj⟩).2))
  ∧ radarLoop (1/10) (1/10) [st00, st11] none = .ok (some (st00, 1/50))
  ∧ dist2dp (1/50) = "0.14"
  ∧ ((1414 : ℚ) / 10000) ^ 2 ≤ 1/50
  ∧ (1/50 : ℚ) < ((1415 : ℚ) / 10000) ^ 2
  ∧ (get_radar_data netRadarEmpty "t0" WeatherContext.init (1/10) (1/10)).1 =
      .ok "No radar stations found nearby."
  ∧ (get_radar_data netRadar "t0" WeatherContext.init (1/10) (1/10)).1 =
      .ok "Nearest Radar Station: A\nLocation: Alpha\nStatus: up\nDistance: 0.14 degrees\n" := by
  refine ⟨?_, by with_unfolding_all rfl, by with_unfolding_all rfl, by norm_num,
    by norm_num, by with_unfolding_all rfl, by with_unfolding_all rfl⟩
  rw [radarLoop_eq, hwf]
  rcases nearestFold_argmin ps hne with ⟨i, h, heq, hmin, hfirst⟩
  refine ⟨i, h, ?_, hmin, hfirst⟩
  simp only [Except.map]
  rw [heq]

/-- Witness for C7 on the spec's two-station scenario. -/
theorem C7_witness :
    ∃ i, ∃ h : i < ([(st00, (1/50 : ℚ)), (st11, (81/50 : ℚ))]).length,
      radarLoop (1/10) (1/10) [st00, st11] none =
        .ok (some (([(st00, (1/50 : ℚ)), (st11, (81/50 : ℚ))]).get ⟨i, h⟩))
      ∧ (∀ j (hj : j < ([(st00, (1/50 : ℚ)), (st11, (81/50 : ℚ))]).length),
          (([(st00, (1/50 : ℚ)), (st11, (81/50 : ℚ))]).get ⟨i, h⟩).2 ≤
            (([(st00, (1/50 : ℚ)), (st11, (81/50 : ℚ))]).get ⟨j, hj⟩).2)
      ∧ (∀ j (hj : j < ([(st00, (1/50 : ℚ)), (st11, (81/50 : ℚ))]).length), j < i →
          (([(st00, (1/50 : ℚ)), (st11, (81/50 : ℚ))]).get ⟨i, h⟩).2 <
            (([(st00, (1/50 : ℚ)), (st11, (81/50 : ℚ))]).get ⟨j, hj⟩).2) :=
  (C7_radar_nearest (1/10) (1/10) [st00, st11] [(st00, 1/50), (st11, 81/50)]
    (by with_unfolding_all rfl) (by simp)).1

/-! ## C8: state alerts append to the alert history -/

/-- Well-formed feature lists yield exactly one alert record per
feature. -/
theorem featureAlerts_length (fs : List JVal) (as : List AlertRecord)
    (h : featureAlerts fs = .ok as) : as.length = fs.length := by
  induction fs generalizing as with
  | nil =>
    simp only [featureAlerts] at h
    cases h
    rfl
  | cons f rest ih =>
    simp only [featureAlerts] at h
    cases hf : featureAlert f with
    | error e => rw [hf] at h; cases h
    | ok a =>
      rw [hf] at h
      cases hr : featureAlerts rest with
      | error e => rw [hr] at h; cases h
      | ok as' =>
        rw [hr] at h
        cases h
        simp [ih as' hr]

/-- The alerts loop on a well-formed feature list appends each record,
in order and without deduplication, to both the local list and the
context's `alert_history`. -/
theorem alertsLoop_ok (fs : List JVal) (as : List AlertRecord)
    (h : featureAlerts fs = .ok as) (acc : List AlertRecord) (ctx : WeatherContext) :
    alertsLoop fs acc ctx =
      (.ok (acc ++ as), { ctx with alert_history := ctx.alert_history ++ as }) := by
  induction fs generalizing as acc ctx with
  | nil =>
    simp only [featureAlerts] at h
    cases h
    simp [alertsLoop]
  | cons f rest ih =>
    simp only [featureAlerts] at h
    cases hf : featureAlert f with
    | error e => rw [hf] at h; cases h
    | ok a =>
      rw [hf] at h
      cases hr : featureAlerts rest with
      | error e => rw [hr] at h; cases h
      | ok as' =>
        rw [hr] at h
        cases h
        simp only [alertsLoop, hf]
        rw [ih as' hr]
        simp [List.append_assoc]

/-- C8: when the fetched feature list is present but empty,
`get_alerts` returns "No active alerts for this state." and leaves
`alert_history` (and the whole context) unchanged; when it is
non-empty and well formed, exactly one `AlertRecord` per feature is
appended to `alert_history` in order, without deduplication — so
repeating the same query appends duplicate records — and the
50-capacity bound is enforced afterwards by a single truncation. -/
theorem C8_state_alerts (net : Net) (now state : String) (ctx : WeatherContext)
    (flds : List (String × JVal)) (fs : List JVal) (as : List AlertRecord)
    (hnet : net (alerts_url state) = .ok (.obj flds))
    (hne : flds ≠ [])
    (hfeat : flds.lookup "features" = some (.arr fs))
    (has : featureAlerts fs = .ok as) :
    (fs = [] → get_alerts net now ctx state =
      (.ok "No active alerts for this state.", ctx))
  ∧ (fs ≠ [] → get_alerts net now ctx state =
      (.ok (String.intercalate "\n---\n" (as.map formatAlert)),
       { ctx with alert_history := takeLast 50 (ctx.alert_history ++ as) })
      ∧ as.length = fs.length) := by
  have hemp : flds.isEmpty = false := by
    cases flds with
    | nil => exact absurd rfl hne
    | cons a l => rfl
  constructor
  · intro hfs
    subst hfs
    simp only [featureAlerts] at has
    cases has
    simp [get_alerts, make_nws_request, hnet, JVal.pyIn, hfeat, JVal.getKey,
      JVal.truthy, hemp]
  · intro hfs
    have hemps : fs.isEmpty = false := by
      cases fs with
      | nil => exact absurd rfl hfs
      | cons a l => rfl
    refine ⟨?_, featureAlerts_length fs as has⟩
    simp only [get_alerts, make_nws_request, hnet, JVal.pyIn, hfeat, JVal.getKey,
      JVal.truthy, hemp, hemps, JVal.asArr, Option.isSome_some, Bool.not_false,
      Bool.not_true, Bool.false_eq_true, if_false]
    rw [alertsLoop_ok fs as has [] ctx]
    simp

/-- Witness for C8: the same alert feature served twice appends two
duplicate records to the fresh context's alert history. -/
theorem C8_witness :
    get_alerts netAlerts2 "t0" WeatherContext.init "CA" =
      (.ok (String.intercalate "\n---\n" ([aRec, aRec].map formatAlert)),
       { WeatherContext.init with
          alert_history := takeLast 50 (WeatherContext.init.alert_history ++ [aRec, aRec]) })
  ∧ ([aRec, aRec] : List AlertRecord).length =
      ([alertFeature, alertFeature] : List JVal).length :=
  (C8_state_alerts netAlerts2 "t0" "CA" WeatherContext.init
    [("features", .arr [alertFeature, alertFeature])] [alertFeature, alertFeature]
    [aRec, aRec] rfl (by simp) rfl rfl).2 (by simp)
